import Mathlib

/-!
Verification of the snapshot-diff and tool-handler logic of an MCP server for
the IP Fabric API (src/mcp_ipf/tools.py and src/mcp_ipf/server.py).

Python values that can appear in a table record are modelled by the inductive
type `Value` (None, str, int, bool, list, dict with string keys).  A table
record (one row of a snapshot table) is an association list from field names
to values, mirroring a Python dict; lookups take the first matching key and
insertion overwrites in place, which matches Python dict semantics because a
Python dict never holds a duplicated key.  Python equality on these values is
structural, modelled by decidable equality on `Value`.  Code that can raise a
Python exception is modelled in `Except String`, where the error string names
the exception.
-/

/-- Model of a Python value as stored in an IP Fabric table record:
None, str, int, bool, list, or dict with string keys. -/
inductive Value where
  | null : Value
  | str : String → Value
  | int : Int → Value
  | bool : Bool → Value
  | list : List Value → Value
  | obj : List (String × Value) → Value

mutual

def valueBeq : Value → Value → Bool
  | .null, .null => true
  | .str a, .str b => a == b
  | .int a, .int b => a == b
  | .bool a, .bool b => a == b
  | .list a, .list b => valueListBeq a b
  | .obj a, .obj b => valuePairsBeq a b
  | _, _ => false

def valueListBeq : List Value → List Value → Bool
  | [], [] => true
  | a :: as, b :: bs => valueBeq a b && valueListBeq as bs
  | _, _ => false

def valuePairsBeq : List (String × Value) → List (String × Value) → Bool
  | [], [] => true
  | (ka, va) :: as, (kb, vb) :: bs => ka == kb && valueBeq va vb && valuePairsBeq as bs
  | _, _ => false

end

mutual

theorem valueBeq_iff : ∀ a b : Value, valueBeq a b = true ↔ a = b
  | .null, .null => by simp [valueBeq]
  | .str a, .str b => by simp [valueBeq]
  | .int a, .int b => by simp [valueBeq]
  | .bool a, .bool b => by simp [valueBeq]
  | .list a, .list b => by
      simp only [valueBeq, valueListBeq_iff a b, Value.list.injEq]
  | .obj a, .obj b => by
      simp only [valueBeq, valuePairsBeq_iff a b, Value.obj.injEq]
  | .null, .str _ => by simp [valueBeq]
  | .null, .int _ => by simp [valueBeq]
  | .null, .bool _ => by simp [valueBeq]
  | .null, .list _ => by simp [valueBeq]
  | .null, .obj _ => by simp [valueBeq]
  | .str _, .null => by simp [valueBeq]
  | .str _, .int _ => by simp [valueBeq]
  | .str _, .bool _ => by simp [valueBeq]
  | .str _, .list _ => by simp [valueBeq]
  | .str _, .obj _ => by simp [valueBeq]
  | .int _, .null => by simp [valueBeq]
  | .int _, .str _ => by simp [valueBeq]
  | .int _, .bool _ => by simp [valueBeq]
  | .int _, .list _ => by simp [valueBeq]
  | .int _, .obj _ => by simp [valueBeq]
  | .bool _, .null => by simp [valueBeq]
  | .bool _, .str _ => by simp [valueBeq]
  | .bool _, .int _ => by simp [valueBeq]
  | .bool _, .list _ => by simp [valueBeq]
  | .bool _, .obj _ => by simp [valueBeq]
  | .list _, .null => by simp [valueBeq]
  | .list _, .str _ => by simp [valueBeq]
  | .list _, .int _ => by simp [valueBeq]
  | .list _, .bool _ => by simp [valueBeq]
  | .list _, .obj _ => by simp [valueBeq]
  | .obj _, .null => by simp [valueBeq]
  | .obj _, .str _ => by simp [valueBeq]
  | .obj _, .int _ => by simp [valueBeq]
  | .obj _, .bool _ => by simp [valueBeq]
  | .obj _, .list _ => by simp [valueBeq]

theorem valueListBeq_iff : ∀ a b : List Value, valueListBeq a b = true ↔ a = b
  | [], [] => by simp [valueListBeq]
  | a :: as, b :: bs => by
      simp only [valueListBeq, Bool.and_eq_true, valueBeq_iff a b,
        valueListBeq_iff as bs, List.cons.injEq]
  | [], _ :: _ => by simp [valueListBeq]
  | _ :: _, [] => by simp [valueListBeq]

theorem valuePairsBeq_iff : ∀ a b : List (String × Value), valuePairsBeq a b = true ↔ a = b
  | [], [] => by simp [valuePairsBeq]
  | (ka, va) :: as, (kb, vb) :: bs => by
      simp only [valuePairsBeq, Bool.and_eq_true, valueBeq_iff va vb,
        valuePairsBeq_iff as bs, List.cons.injEq, Prod.mk.injEq, beq_iff_eq]
  | [], _ :: _ => by simp [valuePairsBeq]
  | _ :: _, [] => by simp [valuePairsBeq]

end

instance : DecidableEq Value := fun a b =>
  decidable_of_iff (valueBeq a b = true) (valueBeq_iff a b)

/-- A table record: a Python dict with string keys, as an association list. -/
abbrev Record := List (String × Value)

/-- First binding of a key in an association list, like a Python dict lookup
(a Python dict never holds a duplicated key, so first-match is exact). -/
def dictLookup {β : Type} : List (String × β) → String → Option β
  | [], _ => none
  | (k1, v1) :: rest, k => if k1 = k then some v1 else dictLookup rest k

/-- Python dict assignment d[k] = v: overwrite in place when the key exists
(keeping its original position, as Python does), append otherwise. -/
def dictInsert {β : Type} : List (String × β) → String → β → List (String × β)
  | [], k, v => [(k, v)]
  | (k1, v1) :: rest, k, v =>
      if k1 = k then (k, v) :: rest else (k1, v1) :: dictInsert rest k v

/-- Python d.get(k, default): the default is used only when the key is absent. -/
def pyDictGetD (r : Record) (k : String) (default : Value) : Value :=
  match dictLookup r k with
  | some v => v
  | none => default

/-- Python d.get(k): None when the key is absent. -/
def pyDictGet (r : Record) (k : String) : Value :=
  pyDictGetD r k Value.null

/-- Python truthiness of a value, as used in if-statements of the source. -/
def Value.truthy : Value → Bool
  | .null => false
  | .str s => s ≠ ""
  | .int n => n ≠ 0
  | .bool b => b
  | .list xs => xs ≠ []
  | .obj kvs => kvs ≠ []

mutual

/-- Python repr of a value (string escaping inside str values is elided,
which is exact for the identifier-like strings of these tables). -/
def pyRepr : Value → String
  | .null => "None"
  | .str s => "\x27" ++ s ++ "\x27"
  | .int n => toString n
  | .bool b => if b then "True" else "False"
  | .list xs => "[" ++ pyReprList xs ++ "]"
  | .obj kvs => "\x7b" ++ pyReprPairs kvs ++ "\x7d"

def pyReprList : List Value → String
  | [] => ""
  | [x] => pyRepr x
  | x :: y :: xs => pyRepr x ++ ", " ++ pyReprList (y :: xs)

def pyReprPairs : List (String × Value) → String
  | [] => ""
  | [(k, v)] => "\x27" ++ k ++ "\x27: " ++ pyRepr v
  | (k, v) :: p :: xs => "\x27" ++ k ++ "\x27: " ++ pyRepr v ++ ", " ++ pyReprPairs (p :: xs)

end

/-- Python str of a value, as interpolated by an f-string. -/
def pyStr : Value → String
  | .str s => s
  | v => pyRepr v

/-- Python len(v); raises TypeError on values with no length. -/
def pyLen : Value → Except String Nat
  | .str s => .ok s.length
  | .list xs => .ok xs.length
  | .obj kvs => .ok kvs.length
  | _ => .error "TypeError: object has no length"

/-- Python v[0]: head of a list, first character of a str; a dict raises
KeyError (the tables here never use an integer dict key), anything else
raises TypeError. -/
def pyIndex0 : Value → Except String Value
  | .list (h :: _) => .ok h
  | .list [] => .error "IndexError: list index out of range"
  | .str s => if s = "" then .error "IndexError: string index out of range" else .ok (.str (s.take 1))
  | .obj _ => .error "KeyError: 0"
  | _ => .error "TypeError: object is not subscriptable"

/-- Python v.get(k) as a method call: only a dict has a get method, anything
else raises AttributeError. -/
def pyGetMethod : Value → String → Except String Value
  | .obj kvs, k => .ok (pyDictGetD kvs k Value.null)
  | _, _ => .error "AttributeError: object has no attribute get"

/-!
The route diff engine: DiffRoutesToolHandler._compare_routes,
src/mcp_ipf/tools.py lines 1489-1564.
-/

/-- The simplified projection of a route record built by the local function
simplify (tools.py 1506-1522): a dict with the four keys protocol,
nexthop_ip, intName, metric, in that insertion order. -/
structure SimpleRoute where
  protocol : Value
  nexthop_ip : Value
  intName : Value
  metric : Value
deriving DecidableEq

/-- Python d.get(field) on the simplified dict: the four fixed fields,
None for any other name (no other name ever occurs). -/
def SimpleRoute.get (s : SimpleRoute) : String → Value
  | "protocol" => s.protocol
  | "nexthop_ip" => s.nexthop_ip
  | "intName" => s.intName
  | "metric" => s.metric
  | _ => Value.null

/-- Iteration over the simplified dict (for field in dict_a[key]) visits its
keys in insertion order: protocol, nexthop_ip, intName, metric. -/
def simplifiedFields (s : SimpleRoute) : List (String × Value) :=
  [("protocol", s.protocol), ("nexthop_ip", s.nexthop_ip),
   ("intName", s.intName), ("metric", s.metric)]

/-- make_key (tools.py 1502-1504): the composite identity key
hostname|vrf|network, rendered through the f-string. -/
def make_key (route : Record) : String :=
  pyStr (pyDictGet route "hostname") ++ "|" ++ pyStr (pyDictGet route "vrf")
    ++ "|" ++ pyStr (pyDictGet route "network")

/-- simplify (tools.py 1506-1522): restrict a route record to protocol,
first next-hop ip, first next-hop interface name, and lowest metric.  The
condition mirrors the source line by line:
nexthop truthy, len(nexthop) greater than 0, nexthop[0] truthy; each Python
operation that can raise is in Except. -/
def simplify (route : Record) : Except String SimpleRoute :=
  let protocol := pyDictGet route "protocol"
  let metric := pyDictGet route "nhLowestMetric"
  let nexthop := pyDictGet route "nexthop"
  if nexthop.truthy then
    match pyLen nexthop with
    | .error e => .error e
    | .ok n =>
      if n > 0 then
        match pyIndex0 nexthop with
        | .error e => .error e
        | .ok h =>
          if h.truthy then
            match pyGetMethod h "ip" with
            | .error e => .error e
            | .ok nexthop_ip =>
              match pyGetMethod h "intName" with
              | .error e => .error e
              | .ok int_name => .ok ⟨protocol, nexthop_ip, int_name, metric⟩
          else .ok ⟨protocol, .null, .null, metric⟩
      else .ok ⟨protocol, .null, .null, metric⟩
  else .ok ⟨protocol, .null, .null, metric⟩

/-- The dict comprehension of tools.py 1525-1526: build the key-to-projection
dict left to right; a later record with the same key overwrites the value
(last-write-wins), as in a Python dict comprehension. -/
def buildDict : List Record → List (String × SimpleRoute) →
    Except String (List (String × SimpleRoute))
  | [], m => .ok m
  | r :: rs, m =>
    match simplify r with
    | .error e => .error e
    | .ok s => buildDict rs (dictInsert m (make_key r) s)

/-- One changed route: the dict appended at tools.py 1543, route key plus a
changes dict listing, per differing field, the field name with its from and
to values. -/
structure ChangedEntry where
  route : String
  changes : List (String × Value × Value)
deriving DecidableEq

/-- The changes comprehension of tools.py 1537-1541: iterate the fields of
the first simplified dict, keep those whose values differ, recording from
and to. -/
def routeChanges (va vb : SimpleRoute) : List (String × Value × Value) :=
  (simplifiedFields va).filterMap fun fv =>
    if va.get fv.1 ≠ vb.get fv.1 then some (fv.1, va.get fv.1, vb.get fv.1) else none

/-- The first loop of _compare_routes (tools.py 1533-1543): iterate dict_a in
insertion order; a key absent from dict_b is removed; a key present with a
different projection contributes a changed entry when its changes dict is
nonempty. -/
def scanRemovedChanged (entries : List (String × SimpleRoute))
    (dict_b : List (String × SimpleRoute)) : List String × List ChangedEntry :=
  match entries with
  | [] => ([], [])
  | (key, va) :: rest =>
    let acc := scanRemovedChanged rest dict_b
    match dictLookup dict_b key with
    | none => (key :: acc.1, acc.2)
    | some vb =>
      if va ≠ vb then
        let changes := routeChanges va vb
        if changes ≠ [] then (acc.1, ⟨key, changes⟩ :: acc.2) else acc
      else acc

/-- The second loop of _compare_routes (tools.py 1546-1548): keys of dict_b
absent from dict_a, in dict_b iteration order. -/
def addedKeys (dict_b dict_a : List (String × SimpleRoute)) : List String :=
  dict_b.filterMap fun kv =>
    match dictLookup dict_a kv.1 with
    | none => some kv.1
    | some _ => none

/-- summary_counts of tools.py 1550-1554. -/
structure SummaryCounts where
  added : Nat
  removed : Nat
  modified : Nat
deriving DecidableEq

/-- The dict returned by _compare_routes (tools.py 1556-1564). -/
structure RouteDiffResult where
  snapshot_a_id : Value
  snapshot_b_id : Value
  added : List String
  removed : List String
  changed : List ChangedEntry
  summary_counts : SummaryCounts
  message : String
deriving DecidableEq

/-- DiffRoutesToolHandler._compare_routes (tools.py 1489-1564).  The two
snapshot identifiers are the Python values taken from the tool arguments. -/
def compare_routes (routes_a routes_b : List Record) (snapshot_a snapshot_b : Value) :
    Except String RouteDiffResult :=
  match buildDict routes_a [] with
  | .error e => .error e
  | .ok dict_a =>
    match buildDict routes_b [] with
    | .error e => .error e
    | .ok dict_b =>
      let rc := scanRemovedChanged dict_a dict_b
      let added := addedKeys dict_b dict_a
      .ok { snapshot_a_id := snapshot_a
            snapshot_b_id := snapshot_b
            added := added
            removed := rc.1
            changed := rc.2
            summary_counts := ⟨added.length, rc.1.length, rc.2.length⟩
            message := "Route table comparison complete. Found "
              ++ toString added.length ++ " added, " ++ toString rc.1.length
              ++ " removed, and " ++ toString rc.2.length ++ " modified routes." }

/-!
Helper lemmas about the association-list dict model.
-/

theorem dictLookup_isSome_of_mem {β : Type} (m : List (String × β)) (kv : String × β)
    (h : kv ∈ m) : (dictLookup m kv.1).isSome := by
  induction m with
  | nil => cases h
  | cons hd rest ih =>
    obtain ⟨k1, v1⟩ := hd
    rcases List.mem_cons.mp h with heq | hmem
    · subst heq; simp [dictLookup]
    · by_cases hk : k1 = kv.1
      · simp [dictLookup, hk]
      · simpa [dictLookup, hk] using ih hmem

theorem dictLookup_eq_of_nodup_mem {β : Type} (m : List (String × β))
    (hnd : (m.map Prod.fst).Nodup) (k : String) (v : β)
    (h : (k, v) ∈ m) : dictLookup m k = some v := by
  induction m with
  | nil => cases h
  | cons hd rest ih =>
    obtain ⟨k1, v1⟩ := hd
    simp only [List.map_cons, List.nodup_cons] at hnd
    rcases List.mem_cons.mp h with heq | hmem
    · cases heq; simp [dictLookup]
    · have hk : k1 ≠ k := by
        intro hkk
        exact hnd.1 (hkk ▸ List.mem_map.mpr ⟨(k, v), hmem, rfl⟩)
      simp only [dictLookup, if_neg hk]
      exact ih hnd.2 hmem

theorem mem_keys_dictInsert {β : Type} (m : List (String × β)) (k : String) (v : β)
    (a : String) :
    a ∈ (dictInsert m k v).map Prod.fst ↔ a ∈ m.map Prod.fst ∨ a = k := by
  induction m with
  | nil => simp [dictInsert]
  | cons hd rest ih =>
    obtain ⟨k1, v1⟩ := hd
    by_cases hk : k1 = k
    · subst hk; simp [dictInsert]; tauto
    · simp only [dictInsert, if_neg hk, List.map_cons, List.mem_cons, ih]
      tauto

theorem nodup_keys_dictInsert {β : Type} (m : List (String × β)) (k : String) (v : β)
    (hnd : (m.map Prod.fst).Nodup) : ((dictInsert m k v).map Prod.fst).Nodup := by
  induction m with
  | nil => simp [dictInsert]
  | cons hd rest ih =>
    obtain ⟨k1, v1⟩ := hd
    simp only [List.map_cons, List.nodup_cons] at hnd
    by_cases hk : k1 = k
    · subst hk
      simpa [dictInsert] using hnd
    · simp only [dictInsert, if_neg hk, List.map_cons, List.nodup_cons]
      refine ⟨fun hmem => ?_, ih hnd.2⟩
      rcases (mem_keys_dictInsert rest k v k1).mp hmem with h1 | h1
      · exact hnd.1 h1
      · exact hk h1

theorem buildDict_nodup (rs : List Record) (m m2 : List (String × SimpleRoute))
    (hnd : (m.map Prod.fst).Nodup) (h : buildDict rs m = .ok m2) :
    (m2.map Prod.fst).Nodup := by
  induction rs generalizing m with
  | nil =>
    simp only [buildDict, Except.ok.injEq] at h
    exact h ▸ hnd
  | cons r rest ih =>
    simp only [buildDict] at h
    cases hs : simplify r with
    | error e => rw [hs] at h; cases h
    | ok s =>
      rw [hs] at h
      exact ih (dictInsert m (make_key r) s) (nodup_keys_dictInsert m (make_key r) s hnd) h

/-!
Lemmas about the two loops of _compare_routes.
-/

theorem scanRemovedChanged_fst (l dict_b : List (String × SimpleRoute)) :
    (scanRemovedChanged l dict_b).1 = l.filterMap fun kv =>
      match dictLookup dict_b kv.1 with
      | none => some kv.1
      | some _ => none := by
  induction l with
  | nil => rfl
  | cons hd rest ih =>
    obtain ⟨key, va⟩ := hd
    simp only [scanRemovedChanged, List.filterMap_cons]
    cases hlk : dictLookup dict_b key with
    | none => simpa [hlk] using ih
    | some vb =>
      simp only [hlk]
      by_cases hne : va = vb
      · subst hne
        simpa using ih
      · rw [if_pos hne]
        by_cases hch : routeChanges va vb = []
        · rw [if_neg (by simp [hch])]
          exact ih
        · rw [if_pos hch]
          exact ih

theorem scanRemovedChanged_nil_of (l m : List (String × SimpleRoute))
    (h : ∀ kv ∈ l, dictLookup m kv.1 = some kv.2) :
    scanRemovedChanged l m = ([], []) := by
  induction l with
  | nil => rfl
  | cons hd rest ih =>
    obtain ⟨key, va⟩ := hd
    have hhd : dictLookup m key = some va := h (key, va) (List.mem_cons_self _ _)
    simp only [scanRemovedChanged, hhd]
    rw [ih fun kv hkv => h kv (List.mem_cons_of_mem _ hkv)]
    simp

theorem addedKeys_self_nil (m : List (String × SimpleRoute)) : addedKeys m m = [] := by
  rw [addedKeys, List.filterMap_eq_nil_iff]
  intro kv hkv
  have := dictLookup_isSome_of_mem m kv hkv
  cases hlk : dictLookup m kv.1 with
  | none => rw [hlk] at this; cases this
  | some w => simp [hlk]

/-- Claim C1: for every list of route records A (the empty list included) and
any snapshot identifiers, comparing A against itself with the route diff
engine yields a result whose added, removed and changed collections are all
empty. -/
theorem compare_routes_self_empty (A : List Record) (sa sb : Value)
    (res : RouteDiffResult) (h : compare_routes A A sa sb = .ok res) :
    res.added = [] ∧ res.removed = [] ∧ res.changed = [] := by
  cases hA : buildDict A [] with
  | error e => rw [compare_routes, hA] at h; cases h
  | ok m =>
    rw [compare_routes, hA] at h
    simp only [Except.ok.injEq] at h
    have hnd : (m.map Prod.fst).Nodup :=
      buildDict_nodup A [] m (by simp) hA
    have hscan : scanRemovedChanged m m = ([], []) :=
      scanRemovedChanged_nil_of m m fun kv hkv =>
        dictLookup_eq_of_nodup_mem m hnd kv.1 kv.2 hkv
    subst h
    refine ⟨addedKeys_self_nil m, ?_, ?_⟩ <;> simp [hscan]

def selfDiffRecord : Record :=
  [("hostname", .str "r1"), ("vrf", .str "default"), ("network", .str "10.0.0.0/24"),
   ("nhLowestMetric", .int 10)]

def selfDiffResult : RouteDiffResult :=
  { snapshot_a_id := .str "s1"
    snapshot_b_id := .str "s2"
    added := []
    removed := []
    changed := []
    summary_counts := ⟨0, 0, 0⟩
    message := "Route table comparison complete. Found 0 added, 0 removed, and 0 modified routes." }

/-- Witness for claim C1 at a concrete one-route list. -/
theorem compare_routes_self_empty_witness :
    selfDiffResult.added = [] ∧ selfDiffResult.removed = [] ∧ selfDiffResult.changed = [] :=
  compare_routes_self_empty [selfDiffRecord] (.str "s1") (.str "s2") selfDiffResult rfl

/-- Claim C2: the added collection of compare_routes A B equals the removed
collection of compare_routes B A, and symmetrically, for all route record
lists and snapshot identifiers. -/
theorem compare_routes_added_removed_symm (A B : List Record) (sa sb sa2 sb2 : Value)
    (resAB resBA : RouteDiffResult)
    (hAB : compare_routes A B sa sb = .ok resAB)
    (hBA : compare_routes B A sa2 sb2 = .ok resBA) :
    resAB.added = resBA.removed ∧ resAB.removed = resBA.added := by
  cases hA : buildDict A [] with
  | error e => rw [compare_routes, hA] at hAB; cases hAB
  | ok mA =>
    cases hB : buildDict B [] with
    | error e => rw [compare_routes, hA, hB] at hAB; cases hAB
    | ok mB =>
      rw [compare_routes, hA, hB] at hAB
      rw [compare_routes, hB, hA] at hBA
      simp only [Except.ok.injEq] at hAB hBA
      subst hAB; subst hBA
      constructor
      · rw [scanRemovedChanged_fst mB mA]; rfl
      · rw [scanRemovedChanged_fst mA mB]; rfl

def symmRecordA : Record :=
  [("hostname", .str "r1"), ("vrf", .str "default"), ("network", .str "10.0.0.0/24")]

def symmRecordB : Record :=
  [("hostname", .str "r2"), ("vrf", .str "default"), ("network", .str "10.1.0.0/24")]

/-- Witness for claim C2 at two concrete one-route lists with distinct keys. -/
theorem compare_routes_added_removed_symm_witness :
    ["r2|default|10.1.0.0/24"] = ["r2|default|10.1.0.0/24"]
      ∧ ["r1|default|10.0.0.0/24"] = ["r1|default|10.0.0.0/24"] := by
  have h := compare_routes_added_removed_symm [symmRecordA] [symmRecordB]
    (.str "s1") (.str "s2") (.str "s2") (.str "s1")
    { snapshot_a_id := .str "s1", snapshot_b_id := .str "s2"
      added := ["r2|default|10.1.0.0/24"], removed := ["r1|default|10.0.0.0/24"]
      changed := [], summary_counts := ⟨1, 1, 0⟩
      message := "Route table comparison complete. Found 1 added, 1 removed, and 0 modified routes." }
    { snapshot_a_id := .str "s2", snapshot_b_id := .str "s1"
      added := ["r1|default|10.0.0.0/24"], removed := ["r2|default|10.1.0.0/24"]
      changed := [], summary_counts := ⟨1, 1, 0⟩
      message := "Route table comparison complete. Found 1 added, 1 removed, and 0 modified routes." }
    rfl rfl
  exact h

/-!
Claim C3: the concrete metric-change example.
-/

def metricRecordA : Record :=
  [("hostname", .str "r1"), ("vrf", .str "default"), ("network", .str "10.0.0.0/24"),
   ("nhLowestMetric", .int 10)]

def metricRecordB : Record :=
  [("hostname", .str "r1"), ("vrf", .str "default"), ("network", .str "10.0.0.0/24"),
   ("nhLowestMetric", .int 20)]

/-- Claim C3: comparing the one-record list with nhLowestMetric 10 against the
same record with nhLowestMetric 20 yields empty added and removed collections
and exactly one changed entry, keyed r1|default|10.0.0.0/24, whose changes
dict is exactly the field metric with from 10 and to 20. -/
theorem compare_routes_metric_change :
    (compare_routes [metricRecordA] [metricRecordB] (.str "snapA") (.str "snapB")).map
      (fun d => (d.added, d.removed, d.changed))
    = .ok ([], [], [⟨"r1|default|10.0.0.0/24", [("metric", Value.int 10, Value.int 20)]⟩]) :=
  rfl

/-!
Claim C4: characterization of the changed collection.
-/

theorem routeChanges_self (v : SimpleRoute) : routeChanges v v = [] := by
  simp [routeChanges, simplifiedFields]

theorem routeChanges_eq_nil_iff (va vb : SimpleRoute) :
    routeChanges va vb = [] ↔ va = vb := by
  constructor
  · intro h
    rw [routeChanges, List.filterMap_eq_nil_iff] at h
    have hp := h ("protocol", va.protocol) (by simp [simplifiedFields])
    have hn := h ("nexthop_ip", va.nexthop_ip) (by simp [simplifiedFields])
    have hi := h ("intName", va.intName) (by simp [simplifiedFields])
    have hm := h ("metric", va.metric) (by simp [simplifiedFields])
    simp only [ite_eq_right_iff, reduceCtorEq, imp_false, not_not] at hp hn hi hm
    obtain ⟨p1, n1, i1, m1⟩ := va
    obtain ⟨p2, n2, i2, m2⟩ := vb
    simp only [SimpleRoute.get] at hp hn hi hm
    simp [hp, hn, hi, hm]
  · rintro rfl
    exact routeChanges_self va

theorem scanRemovedChanged_changed_routes (l d : List (String × SimpleRoute))
    (e : ChangedEntry) (he : e ∈ (scanRemovedChanged l d).2) :
    e.route ∈ l.map Prod.fst := by
  induction l with
  | nil => simp [scanRemovedChanged] at he
  | cons hd rest ih =>
    obtain ⟨key, va⟩ := hd
    cases hlk : dictLookup d key with
    | none =>
      simp only [scanRemovedChanged, hlk] at he
      exact List.mem_cons_of_mem _ (ih he)
    | some vb =>
      simp only [scanRemovedChanged, hlk] at he
      by_cases hne : va = vb
      · rw [if_neg (by simp [hne])] at he
        exact List.mem_cons_of_mem _ (ih he)
      · rw [if_pos hne] at he
        by_cases hch : routeChanges va vb = []
        · rw [if_neg (by simp [hch])] at he
          exact List.mem_cons_of_mem _ (ih he)
        · rw [if_pos hch] at he
          rcases List.mem_cons.mp he with heq | hmem
          · subst heq; simp
          · exact List.mem_cons_of_mem _ (ih hmem)

theorem scanRemovedChanged_filter_changed (mA mB : List (String × SimpleRoute))
    (hnd : (mA.map Prod.fst).Nodup) (k : String) (vA vB : SimpleRoute)
    (hkA : dictLookup mA k = some vA) (hkB : dictLookup mB k = some vB) :
    (scanRemovedChanged mA mB).2.filter (fun e => e.route == k)
      = if vA = vB then [] else [⟨k, routeChanges vA vB⟩] := by
  induction mA with
  | nil => simp [dictLookup] at hkA
  | cons hd rest ih =>
    obtain ⟨k1, v1⟩ := hd
    simp only [List.map_cons, List.nodup_cons] at hnd
    by_cases hk1 : k1 = k
    · subst hk1
      have hv : v1 = vA := by simpa [dictLookup] using hkA
      subst hv
      have hfil : (scanRemovedChanged rest mB).2.filter (fun e => e.route == k1) = [] := by
        rw [List.filter_eq_nil_iff]
        intro e he
        have hr := scanRemovedChanged_changed_routes rest mB e he
        simp only [beq_iff_eq]
        intro heq
        exact hnd.1 (heq ▸ hr)
      simp only [scanRemovedChanged, hkB]
      by_cases hne : v1 = vB
      · rw [if_neg (by simp [hne]), if_pos hne]
        exact hfil
      · rw [if_pos hne, if_pos (by simp [(routeChanges_eq_nil_iff v1 vB).not.mpr hne]),
          if_neg hne]
        simp [List.filter_cons, hfil]
    · have hkA2 : dictLookup rest k = some vA := by
        simpa [dictLookup, hk1] using hkA
      have step : (scanRemovedChanged ((k1, v1) :: rest) mB).2.filter (fun e => e.route == k)
          = (scanRemovedChanged rest mB).2.filter (fun e => e.route == k) := by
        cases hlk : dictLookup mB k1 with
        | none => simp only [scanRemovedChanged, hlk]
        | some vb =>
          simp only [scanRemovedChanged, hlk]
          by_cases hne : v1 = vb
          · rw [if_neg (by simp [hne])]
          · rw [if_pos hne]
            by_cases hch : routeChanges v1 vb = []
            · rw [if_neg (by simp [hch])]
            · rw [if_pos hch]
              simp [List.filter_cons, hk1]
      rw [step]
      exact ih hnd.2 hkA2

theorem routeChanges_mem_iff (va vb : SimpleRoute) (f : String) (x y : Value) :
    (f, x, y) ∈ routeChanges va vb ↔
      (f ∈ (["protocol", "nexthop_ip", "intName", "metric"] : List String)
        ∧ x = va.get f ∧ y = vb.get f ∧ x ≠ y) := by
  rw [routeChanges, List.mem_filterMap]
  constructor
  · rintro ⟨fv, hfv, hsome⟩
    by_cases hc : va.get fv.1 = vb.get fv.1
    · rw [if_neg (by simp [hc])] at hsome; cases hsome
    · rw [if_pos hc] at hsome
      obtain ⟨rfl, rfl, rfl⟩ : fv.1 = f ∧ va.get fv.1 = x ∧ vb.get fv.1 = y := by
        simp only [Option.some.injEq, Prod.mk.injEq] at hsome
        exact ⟨hsome.1, hsome.2.1, hsome.2.2⟩
      refine ⟨?_, rfl, rfl, hc⟩
      have hfv2 : fv.1 = "protocol" ∨ fv.1 = "nexthop_ip" ∨ fv.1 = "intName"
          ∨ fv.1 = "metric" := by
        simp only [simplifiedFields, List.mem_cons, List.not_mem_nil, or_false] at hfv
        rcases hfv with h | h | h | h <;> simp [h]
      rcases hfv2 with h | h | h | h <;> simp [h]
  · rintro ⟨hf, rfl, rfl, hxy⟩
    fin_cases hf
    · exact ⟨("protocol", va.protocol), by simp [simplifiedFields], by rw [if_pos hxy]⟩
    · exact ⟨("nexthop_ip", va.nexthop_ip), by simp [simplifiedFields], by rw [if_pos hxy]⟩
    · exact ⟨("intName", va.intName), by simp [simplifiedFields], by rw [if_pos hxy]⟩
    · exact ⟨("metric", va.metric), by simp [simplifiedFields], by rw [if_pos hxy]⟩

theorem compare_routes_single_same (r r2 : Record) (sa sb : Value)
    (hk : make_key r = make_key r2) (hs : simplify r = simplify r2)
    (res2 : RouteDiffResult) (h : compare_routes [r] [r2] sa sb = .ok res2) :
    res2.added = [] ∧ res2.removed = [] ∧ res2.changed = [] := by
  cases hsr : simplify r with
  | error e =>
    rw [compare_routes] at h
    simp [buildDict, hsr] at h
  | ok s =>
    have hsr2 : simplify r2 = .ok s := by rw [← hs, hsr]
    have hbA : buildDict [r] [] = .ok [(make_key r, s)] := by
      simp [buildDict, hsr, dictInsert]
    have hbB : buildDict [r2] [] = .ok [(make_key r, s)] := by
      simp [buildDict, hsr2, dictInsert, ← hk]
    rw [compare_routes, hbA, hbB] at h
    simp only [Except.ok.injEq] at h
    subst h
    refine ⟨?_, ?_, ?_⟩ <;> simp [scanRemovedChanged, dictLookup, addedKeys]

def nexthopRecordA : Record :=
  [("hostname", .str "r1"), ("vrf", .str "default"), ("network", .str "10.0.0.0/24"),
   ("protocol", .str "ospf"),
   ("nexthop", .list [.obj [("ip", .str "10.9.9.1"), ("intName", .str "eth0")]]),
   ("nhCount", .int 1), ("siteName", .str "siteA"), ("nhLowestMetric", .int 10)]

def nexthopRecordB : Record :=
  [("hostname", .str "r1"), ("vrf", .str "default"), ("network", .str "10.0.0.0/24"),
   ("protocol", .str "ospf"),
   ("nexthop", .list [.obj [("ip", .str "10.9.9.1"), ("intName", .str "eth0")],
                      .obj [("ip", .str "10.9.9.2"), ("intName", .str "eth1")]]),
   ("nhCount", .int 2), ("siteName", .str "siteB"), ("nhLowestMetric", .int 10)]

/-- Claim C4: for a key present in both built dicts, a changed entry for that
key is produced exactly when the two simplified projections differ, its
changes dict holds exactly the differing projection fields as from-to pairs
and never an unchanged field; records whose key and simplified projection
agree never produce any difference; and two concrete records differing only
in a second next-hop entry, nhCount and siteName (fields outside the fixed
projection) produce no added, removed or changed entry. -/
theorem compare_routes_changed_characterization
    (A B : List Record) (sa sb : Value) (res : RouteDiffResult)
    (mA mB : List (String × SimpleRoute)) (k : String) (vA vB : SimpleRoute)
    (hA : buildDict A [] = .ok mA) (hB : buildDict B [] = .ok mB)
    (hres : compare_routes A B sa sb = .ok res)
    (hkA : dictLookup mA k = some vA) (hkB : dictLookup mB k = some vB) :
    (res.changed.filter (fun e => e.route == k)
        = if vA = vB then [] else [⟨k, routeChanges vA vB⟩])
    ∧ (∀ f x y, (f, x, y) ∈ routeChanges vA vB ↔
        (f ∈ (["protocol", "nexthop_ip", "intName", "metric"] : List String)
          ∧ x = vA.get f ∧ y = vB.get f ∧ x ≠ y))
    ∧ (∀ (r r2 : Record) (res2 : RouteDiffResult), make_key r = make_key r2 →
        simplify r = simplify r2 → compare_routes [r] [r2] sa sb = .ok res2 →
        res2.added = [] ∧ res2.removed = [] ∧ res2.changed = [])
    ∧ (compare_routes [nexthopRecordA] [nexthopRecordB] sa sb).map
        (fun d => (d.added, d.removed, d.changed)) = .ok ([], [], []) := by
  refine ⟨?_, fun f x y => routeChanges_mem_iff vA vB f x y,
    fun r r2 res2 hk hs h => compare_routes_single_same r r2 sa sb hk hs res2 h, rfl⟩
  rw [compare_routes, hA, hB] at hres
  simp only [Except.ok.injEq] at hres
  subst hres
  exact scanRemovedChanged_filter_changed mA mB
    (buildDict_nodup A [] mA (by simp) hA) k vA vB hkA hkB

def c4WitnessVA : SimpleRoute := ⟨.null, .null, .null, .int 10⟩

def c4WitnessVB : SimpleRoute := ⟨.null, .null, .null, .int 20⟩

def c4WitnessRes : RouteDiffResult :=
  { snapshot_a_id := .str "s1"
    snapshot_b_id := .str "s2"
    added := []
    removed := []
    changed := [⟨"r1|default|10.0.0.0/24", [("metric", .int 10, .int 20)]⟩]
    summary_counts := ⟨0, 0, 1⟩
    message := "Route table comparison complete. Found 0 added, 0 removed, and 1 modified routes." }

/-- Witness for claim C4 at the concrete metric-change input. -/
theorem compare_routes_changed_characterization_witness :
    c4WitnessRes.changed.filter (fun e => e.route == "r1|default|10.0.0.0/24")
      = if c4WitnessVA = c4WitnessVB then []
        else [⟨"r1|default|10.0.0.0/24", routeChanges c4WitnessVA c4WitnessVB⟩] :=
  (compare_routes_changed_characterization [metricRecordA] [metricRecordB]
    (.str "s1") (.str "s2") c4WitnessRes
    [("r1|default|10.0.0.0/24", c4WitnessVA)] [("r1|default|10.0.0.0/24", c4WitnessVB)]
    "r1|default|10.0.0.0/24" c4WitnessVA c4WitnessVB rfl rfl rfl rfl rfl).1

/-!
The tool handler layer (src/mcp_ipf/tools.py).

The IPFClient collaborator is modelled by IPFState: its mutable snapshot_id
attribute plus the resolutions of the two reserved aliases held by
ipf.snapshots (the snapshot_id attribute of the entries at keys for the
previous and the latest loaded snapshot).  Data fetches and table compare
calls are oracles passed in as functions returning Except, an error being a
raised exception.  A run_tool body that lets an exception escape is modelled
by PyResult.exc naming the exception.
-/

/-- The mutable client state: ipf.snapshot_id plus the resolved identifiers
behind the two reserved aliases of ipf.snapshots. -/
structure IPFState where
  snapshot_id : Value
  prev_snapshot_id : Value
  last_snapshot_id : Value

/-- The JSON envelope built by ToolHandler._format_response (tools.py 45-61):
success flag, data on success or the error string on failure, the current
snapshot, and an optional message. -/
structure Envelope (α : Type) where
  success : Bool
  payload : Except String α
  current_snapshot : Value
  message : Option String

/-- ToolHandler._format_response (tools.py 45-61).  Every call site of the
source leaves the snapshot_id parameter at None, so current_snapshot is
always self.ipf.snapshot_id; a falsy (empty) message is omitted. -/
def format_response {α : Type} (ipf : IPFState) (payload : Except String α)
    (message : String) : Envelope α :=
  { success := match payload with | .ok _ => true | .error _ => false
    payload := payload
    current_snapshot := ipf.snapshot_id
    message := if message = "" then none else some message }

/-- ToolHandler._handle_exception (tools.py 63-65). -/
def handle_exception {α : Type} (ipf : IPFState) (e : String) (operation : String) :
    Envelope α :=
  format_response ipf (.error e) ("Failed to " ++ operation)

/-- Outcome of a run_tool body: a returned value, or an exception that
escapes the method (name of the exception). -/
inductive PyResult (α : Type) where
  | ok : α → PyResult α
  | exc : String → PyResult α

/-- SetSnapshotToolHandler.run_tool (tools.py 207-225): a falsy snapshot_id
argument is rejected before any state change; otherwise ipf.snapshot_id is
assigned and the confirmation dict with old and new values is returned. -/
def set_snapshot_run_tool (ipf : IPFState) (args : Record) : Envelope Value × IPFState :=
  let snapshot_id := pyDictGet args "snapshot_id"
  if ¬ snapshot_id.truthy then
    (format_response ipf (.error "snapshot_id argument is required")
      "Missing required parameter", ipf)
  else
    let old_snapshot := ipf.snapshot_id
    let ipf2 := { ipf with snapshot_id := snapshot_id }
    (format_response ipf2
      (.ok (Value.obj [("old_snapshot", old_snapshot), ("new_snapshot", ipf2.snapshot_id)]))
      ("Successfully changed snapshot from " ++ pyStr old_snapshot ++ " to "
        ++ pyStr ipf2.snapshot_id),
     ipf2)

/-- The response formatting shared by every query handler (for example
GetDevicesToolHandler.run_tool, tools.py 316-326): a fetch error becomes the
error envelope of _handle_exception, a fetched list becomes a success
envelope whose message counts the rows (len(result) if result else 0). -/
def query_format (ipf : IPFState) (label operation : String)
    (r : Except String (List Value)) : Envelope Value :=
  match r with
  | .error e => handle_exception ipf e operation
  | .ok result =>
      format_response ipf (.ok (Value.list result))
        ("Retrieved " ++ toString (if result = [] then 0 else result.length) ++ " " ++ label)

/-- The body shared verbatim by every query handler (tools.py 316-326 and
its clones): filters defaults to the empty dict, columns to None, and
snapshot_id to self.ipf.snapshot_id, each only when the key is absent; then
the fetch runs with those three arguments. -/
def query_run_tool (ipf : IPFState)
    (fetch : Value → Value → Value → Except String (List Value))
    (label operation : String) (args : Record) : Envelope Value :=
  query_format ipf label operation
    (fetch (pyDictGetD args "filters" (Value.obj [])) (pyDictGet args "columns")
      (pyDictGetD args "snapshot_id" ipf.snapshot_id))

/-- GetDevicesToolHandler.run_tool (tools.py 316-326), the query pattern
instantiated at the devices table. -/
def get_devices_run_tool (ipf : IPFState)
    (fetch : Value → Value → Value → Except String (List Value)) (args : Record) :
    Envelope Value :=
  query_run_tool ipf fetch "devices" "retrieve devices" args

/-- DiffRoutesToolHandler.run_tool (tools.py 1460-1487).  A missing
snapshot_a or snapshot_b key raises KeyError inside the try block; the
except handler then evaluates an f-string that reads those same local
variables, at least one of which was never assigned, so the handler itself
raises UnboundLocalError and the exception escapes run_tool. -/
def diff_routes_run_tool (ipf : IPFState)
    (fetch_routes : Value → Except String (List Record)) (args : Record) :
    PyResult (Envelope RouteDiffResult) :=
  match dictLookup args "snapshot_a" with
  | none => .exc "UnboundLocalError"
  | some snapshot_a =>
    match dictLookup args "snapshot_b" with
    | none => .exc "UnboundLocalError"
    | some snapshot_b =>
      if snapshot_a = snapshot_b then
        .ok (format_response ipf (.error "None")
          "Cannot compare the same snapshot against itself")
      else
        match fetch_routes snapshot_a with
        | .error e => .ok (handle_exception ipf e
            ("compare routes between snapshots \x27" ++ pyStr snapshot_a
              ++ "\x27 and \x27" ++ pyStr snapshot_b ++ "\x27"))
        | .ok routes_a =>
          match fetch_routes snapshot_b with
          | .error e => .ok (handle_exception ipf e
              ("compare routes between snapshots \x27" ++ pyStr snapshot_a
                ++ "\x27 and \x27" ++ pyStr snapshot_b ++ "\x27"))
          | .ok routes_b =>
            match compare_routes routes_a routes_b snapshot_a snapshot_b with
            | .error e => .ok (handle_exception ipf e
                ("compare routes between snapshots \x27" ++ pyStr snapshot_a
                  ++ "\x27 and \x27" ++ pyStr snapshot_b ++ "\x27"))
            | .ok result => .ok (format_response ipf (.ok result) result.message)

/-!
CompareTableToolHandler (tools.py 1225-1406).
-/

/-- The keyword arguments forwarded to the compare method of the table
object (tools.py 1380-1387). -/
structure CompareArgs where
  snapshot_id : Value
  columns : Value
  columns_ignore : Value
  unique_keys : Value
  nested_columns_ignore : Value
  filters : Value

/-- What CompareTableToolHandler.run_tool can return: the usual envelope, or
the bare Python tuple (None, message) of tools.py 1370, which is not an
envelope at all. -/
inductive CompareReturn where
  | envelope : Envelope Value → CompareReturn
  | nonePair : String → CompareReturn

/-- One summary part of tools.py 1392-1397: when the key is present in the
compare result, the length of its value renders as a one-element list; a
value with no len raises TypeError. -/
def summary_part (result : List (String × Value)) (key suffix : String) :
    Except String (List String) :=
  match dictLookup result key with
  | none => .ok []
  | some v =>
    match pyLen v with
    | .error e => .error e
    | .ok n => .ok [toString n ++ " " ++ suffix]

/-- The summary_parts accumulation of tools.py 1390-1397: nothing for a
falsy (empty) result dict, else the added, removed and changed parts in
order. -/
def summary_parts (result : List (String × Value)) : Except String (List String) :=
  if result = [] then .ok []
  else
    match summary_part result "added" "added" with
    | .error e => .error e
    | .ok p1 =>
      match summary_part result "removed" "removed" with
      | .error e => .error e
      | .ok p2 =>
        match summary_part result "changed" "changed" with
        | .error e => .error e
        | .ok p3 => .ok (p1 ++ p2 ++ p3)

/-- The body of CompareTableToolHandler.run_tool after the snapshot was
selected (tools.py 1374-1406): navigate to the table (a failure, including a
non-string table_path at the split call, raises AttributeError, caught at
1403-1404), call compare forwarding the optional arguments (any exception
caught at 1405-1406), build the summary (a TypeError there is caught by the
same handler), and format the success envelope. -/
def compare_table_call (ipf : IPFState)
    (tables : String → Option (CompareArgs → Except String (List (String × Value))))
    (table_path : Value) (args : Record) (snapshot_id selected_snapshot : Value) :
    PyResult CompareReturn :=
  match table_path with
  | .str p =>
    match tables p with
    | none => .ok (.envelope (handle_exception ipf "AttributeError"
        ("access table \x27" ++ pyStr table_path ++ "\x27 - verify the table path is correct")))
    | some compareFn =>
      let cargs : CompareArgs :=
        { snapshot_id := snapshot_id
          columns := pyDictGet args "columns"
          columns_ignore := pyDictGet args "columns_ignore"
          unique_keys := pyDictGet args "unique_keys"
          nested_columns_ignore := pyDictGet args "nested_columns_ignore"
          filters := pyDictGetD args "table_filters" (Value.obj []) }
      match compareFn cargs with
      | .error e => .ok (.envelope (handle_exception ipf e
          ("compare snapshots for table \x27" ++ pyStr table_path ++ "\x27")))
      | .ok result =>
        match summary_parts result with
        | .error e => .ok (.envelope (handle_exception ipf e
            ("compare snapshots for table \x27" ++ pyStr table_path ++ "\x27")))
        | .ok parts =>
          .ok (.envelope (format_response ipf (.ok (Value.obj result))
            ("Comparison completed for table \x27" ++ pyStr table_path
              ++ "\x27 against snapshot \x27" ++ pyStr selected_snapshot ++ "\x27: "
              ++ (if parts = [] then "No differences found"
                  else String.intercalate ", " parts))))
  | _ => .ok (.envelope (handle_exception ipf "AttributeError"
      ("access table \x27" ++ pyStr table_path ++ "\x27 - verify the table path is correct")))

/-- CompareTableToolHandler.run_tool (tools.py 1347-1406).  A missing
table_path key raises KeyError at 1349; the except handler at 1405-1406
evaluates an f-string reading the never-assigned local table_path, raising
UnboundLocalError, which escapes run_tool.  With a falsy snapshot_id
argument the smart selection of 1357-1368 runs: the resolution of the
previous-snapshot alias, or of the latest-snapshot alias when the former
equals the current snapshot.  An explicit snapshot_id equal to the current
snapshot returns the bare tuple of 1370. -/
def compare_table_run_tool (ipf : IPFState)
    (tables : String → Option (CompareArgs → Except String (List (String × Value))))
    (args : Record) : PyResult CompareReturn :=
  match dictLookup args "table_path" with
  | none => .exc "UnboundLocalError"
  | some table_path =>
    let snapshot_id := pyDictGet args "snapshot_id"
    if ¬ snapshot_id.truthy then
      if ipf.snapshot_id = ipf.prev_snapshot_id then
        compare_table_call ipf tables table_path args ipf.last_snapshot_id (.str "$last")
      else
        compare_table_call ipf tables table_path args ipf.prev_snapshot_id (.str "$prev")
    else if snapshot_id = ipf.snapshot_id then
      .ok (.nonePair "Cannot compare against the current snapshot")
    else
      compare_table_call ipf tables table_path args snapshot_id snapshot_id

/-!
Claims C5, C6, C7 about the comparison entry points, C8 and C10 about the
active-snapshot state.
-/

def demoIPF : IPFState := ⟨.str "snapA", .str "snapP", .str "snapL"⟩

def demoTables : String → Option (CompareArgs → Except String (List (String × Value))) :=
  fun _ => none

/-- Claim C5 fails on the code: with an explicit snapshot_id equal to the
current snapshot, CompareTableToolHandler.run_tool returns the bare Python
tuple (None, message) of tools.py 1370 instead of a success false envelope;
only DiffRoutesToolHandler.run_tool (second conjunct, equal snapshot_a and
snapshot_b) produces the standard envelope. -/
theorem compare_table_same_snapshot_raw_pair :
    compare_table_run_tool demoIPF demoTables
      [("table_path", .str "inventory.devices"), ("snapshot_id", .str "snapA")]
      = .ok (.nonePair "Cannot compare against the current snapshot")
    ∧ diff_routes_run_tool demoIPF (fun _ => .ok [])
        [("snapshot_a", .str "x"), ("snapshot_b", .str "x")]
      = .ok { success := false, payload := .error "None", current_snapshot := .str "snapA",
              message := some "Cannot compare the same snapshot against itself" } :=
  ⟨rfl, rfl⟩

/-- Claim C7 fails on the code: a missing required key makes the generic
except handler itself raise, because its f-string reads a local variable the
try block never assigned; the UnboundLocalError escapes run_tool instead of
being returned as a success false envelope.  The three conjuncts cover
CompareTableToolHandler.run_tool with no table_path, and
DiffRoutesToolHandler.run_tool with no snapshot_a and with only
snapshot_a. -/
theorem run_tool_missing_key_raises (ipf : IPFState)
    (tables : String → Option (CompareArgs → Except String (List (String × Value))))
    (fetch_routes : Value → Except String (List Record)) (sa : Value) :
    compare_table_run_tool ipf tables [] = .exc "UnboundLocalError"
    ∧ diff_routes_run_tool ipf fetch_routes [] = .exc "UnboundLocalError"
    ∧ diff_routes_run_tool ipf fetch_routes [("snapshot_a", sa)] = .exc "UnboundLocalError" :=
  ⟨rfl, rfl, rfl⟩

/-- Claim C6: with a falsy snapshot_id argument (absent, None or empty),
CompareTableToolHandler.run_tool compares against the identifier the
previous-snapshot alias resolves to; when that identifier equals the current
snapshot it compares against the identifier the latest-snapshot alias
resolves to instead. -/
theorem compare_table_default_snapshot_selection (ipf : IPFState)
    (tables : String → Option (CompareArgs → Except String (List (String × Value))))
    (args : Record) (table_path : Value)
    (hpath : dictLookup args "table_path" = some table_path)
    (hsnap : (pyDictGet args "snapshot_id").truthy = false) :
    compare_table_run_tool ipf tables args
      = if ipf.snapshot_id = ipf.prev_snapshot_id then
          compare_table_call ipf tables table_path args ipf.last_snapshot_id (.str "$last")
        else
          compare_table_call ipf tables table_path args ipf.prev_snapshot_id (.str "$prev") := by
  simp [compare_table_run_tool, hpath, hsnap]

/-- Witness for claim C6 at a concrete state and argument dict. -/
theorem compare_table_default_snapshot_selection_witness :
    compare_table_run_tool demoIPF demoTables [("table_path", .str "inventory.devices")]
      = if demoIPF.snapshot_id = demoIPF.prev_snapshot_id then
          compare_table_call demoIPF demoTables (.str "inventory.devices")
            [("table_path", .str "inventory.devices")] demoIPF.last_snapshot_id (.str "$last")
        else
          compare_table_call demoIPF demoTables (.str "inventory.devices")
            [("table_path", .str "inventory.devices")] demoIPF.prev_snapshot_id (.str "$prev") :=
  compare_table_default_snapshot_selection demoIPF demoTables
    [("table_path", .str "inventory.devices")] (.str "inventory.devices") rfl rfl

/-- Claim C8: after a successful SetSnapshotToolHandler.run_tool with a
truthy snapshot_id value s, the active snapshot equals s; every query body
(the pattern shared by all query handlers, GetDevicesToolHandler among them)
whose arguments lack a snapshot_id key then fetches with snapshot_id s,
while one that supplies an explicit snapshot_id fetches with the supplied
value. -/
theorem set_snapshot_then_query_uses_active (ipf : IPFState) (args1 : Record) (s : Value)
    (h1 : dictLookup args1 "snapshot_id" = some s) (h2 : s.truthy = true) :
    ((set_snapshot_run_tool ipf args1).1.success = true)
    ∧ ((set_snapshot_run_tool ipf args1).2.snapshot_id = s)
    ∧ (∀ (fetch : Value → Value → Value → Except String (List Value))
        (label operation : String) (args2 : Record),
        dictLookup args2 "snapshot_id" = none →
        query_run_tool (set_snapshot_run_tool ipf args1).2 fetch label operation args2
          = query_format (set_snapshot_run_tool ipf args1).2 label operation
              (fetch (pyDictGetD args2 "filters" (Value.obj []))
                (pyDictGet args2 "columns") s))
    ∧ (∀ (fetch : Value → Value → Value → Except String (List Value))
        (label operation : String) (args2 : Record) (v : Value),
        dictLookup args2 "snapshot_id" = some v →
        query_run_tool (set_snapshot_run_tool ipf args1).2 fetch label operation args2
          = query_format (set_snapshot_run_tool ipf args1).2 label operation
              (fetch (pyDictGetD args2 "filters" (Value.obj []))
                (pyDictGet args2 "columns") v))
    ∧ (∀ (fetch : Value → Value → Value → Except String (List Value)) (args2 : Record),
        dictLookup args2 "snapshot_id" = none →
        get_devices_run_tool (set_snapshot_run_tool ipf args1).2 fetch args2
          = query_format (set_snapshot_run_tool ipf args1).2 "devices" "retrieve devices"
              (fetch (pyDictGetD args2 "filters" (Value.obj []))
                (pyDictGet args2 "columns") s)) := by
  have hget : pyDictGet args1 "snapshot_id" = s := by
    simp [pyDictGet, pyDictGetD, h1]
  have hstate : (set_snapshot_run_tool ipf args1).2 = { ipf with snapshot_id := s } := by
    simp [set_snapshot_run_tool, hget, h2]
  have hsucc : (set_snapshot_run_tool ipf args1).1.success = true := by
    simp [set_snapshot_run_tool, hget, h2, format_response]
  refine ⟨hsucc, by rw [hstate], ?_, ?_, ?_⟩
  · intro fetch label operation args2 hnone
    rw [query_run_tool, hstate]
    simp [pyDictGetD, hnone]
  · intro fetch label operation args2 v hsome
    rw [query_run_tool, hstate]
    simp [pyDictGetD, hsome]
  · intro fetch args2 hnone
    rw [get_devices_run_tool, query_run_tool, hstate]
    simp [pyDictGetD, hnone]

def demoFetch : Value → Value → Value → Except String (List Value) :=
  fun _ _ sid => .ok [sid]

/-- Witness for claim C8: set the snapshot to snapNew, then a fetch without
an explicit snapshot_id uses snapNew. -/
theorem set_snapshot_then_query_uses_active_witness :
    ((set_snapshot_run_tool demoIPF [("snapshot_id", .str "snapNew")]).1.success = true)
    ∧ ((set_snapshot_run_tool demoIPF [("snapshot_id", .str "snapNew")]).2.snapshot_id
        = .str "snapNew")
    ∧ (get_devices_run_tool (set_snapshot_run_tool demoIPF [("snapshot_id", .str "snapNew")]).2
        demoFetch []
        = query_format (set_snapshot_run_tool demoIPF [("snapshot_id", .str "snapNew")]).2
            "devices" "retrieve devices"
            (demoFetch (Value.obj []) Value.null (.str "snapNew"))) := by
  have h := set_snapshot_then_query_uses_active demoIPF [("snapshot_id", .str "snapNew")]
    (.str "snapNew") rfl rfl
  exact ⟨h.1, h.2.1, h.2.2.2.2 demoFetch [] rfl⟩

/-- Claim C10: a falsy snapshot_id argument (absent, None or the empty
string) makes SetSnapshotToolHandler.run_tool return a success false
envelope with the client state unchanged; and whenever the state did change,
the run had returned a success envelope (mutation happens only on the
success path). -/
theorem set_snapshot_invalid_leaves_state (ipf : IPFState) (args : Record)
    (h : dictLookup args "snapshot_id" = none
      ∨ dictLookup args "snapshot_id" = some Value.null
      ∨ dictLookup args "snapshot_id" = some (Value.str "")) :
    ((set_snapshot_run_tool ipf args).1.success = false)
    ∧ ((set_snapshot_run_tool ipf args).2 = ipf)
    ∧ (∀ args2 : Record, (set_snapshot_run_tool ipf args2).2 ≠ ipf →
        (set_snapshot_run_tool ipf args2).1.success = true) := by
  have hfalsy : (pyDictGet args "snapshot_id").truthy = false := by
    rcases h with h | h | h <;> simp [pyDictGet, pyDictGetD, h, Value.truthy]
  refine ⟨?_, ?_, ?_⟩
  · simp [set_snapshot_run_tool, hfalsy, format_response]
  · simp [set_snapshot_run_tool, hfalsy]
  · intro args2 hne
    by_cases ht : (pyDictGet args2 "snapshot_id").truthy
    · simp [set_snapshot_run_tool, ht, format_response]
    · exact absurd (by simp [set_snapshot_run_tool, ht]) hne

/-- Witness for claim C10 at the empty argument dict. -/
theorem set_snapshot_invalid_leaves_state_witness :
    ((set_snapshot_run_tool demoIPF []).1.success = false)
    ∧ ((set_snapshot_run_tool demoIPF []).2 = demoIPF) := by
  have h := set_snapshot_invalid_leaves_state demoIPF [] (Or.inl rfl)
  exact ⟨h.1, h.2.1⟩

/-!
The tool registry (src/mcp_ipf/server.py 63-150).
-/

/-- The handler classes defined in tools.py, one constructor per class. -/
inductive HandlerKind where
  | getFilterHelp | getSnapshots | setSnapshot | getDevices | getInterfaces
  | getHosts | getSites | getVendors | getVlans | getRoutingTable
  | getManagedIPv4 | getArp | getMac | getNeighbors | getAvailableColumns
  | getConnectionInfo | compareTable | diffRoutes
deriving DecidableEq

/-- The tool name each handler passes to the ToolHandler constructor. -/
def HandlerKind.toolName : HandlerKind → String
  | .getFilterHelp => "ipf_get_filter_help"
  | .getSnapshots => "ipf_get_snapshots"
  | .setSnapshot => "ipf_set_snapshot"
  | .getDevices => "ipf_get_devices"
  | .getInterfaces => "ipf_get_interfaces"
  | .getHosts => "ipf_get_hosts"
  | .getSites => "ipf_get_sites"
  | .getVendors => "ipf_get_vendors"
  | .getVlans => "ipf_get_vlans"
  | .getRoutingTable => "ipf_get_routing_table"
  | .getManagedIPv4 => "ipf_get_managed_ipv4"
  | .getArp => "ipf_get_arp"
  | .getMac => "ipf_get_mac"
  | .getNeighbors => "ipf_get_neighbors"
  | .getAvailableColumns => "ipf_get_available_columns"
  | .getConnectionInfo => "ipf_get_connection_info"
  | .compareTable => "ipf_compare_table"
  | .diffRoutes => "ipf_diff_routes"

/-- The tool_classes list of register_tool_handlers (server.py 69-87), in
source order.  Every construction and description validation there succeeds
(the descriptions are static data), so each class is registered. -/
def tool_classes : List HandlerKind :=
  [.getFilterHelp, .getSnapshots, .setSnapshot, .getDevices, .getInterfaces,
   .getHosts, .getSites, .getVendors, .getVlans, .getRoutingTable,
   .getManagedIPv4, .getArp, .getMac, .getNeighbors, .getAvailableColumns,
   .getConnectionInfo, .compareTable]

/-- add_tool_handler (server.py 109-112): dict assignment keyed by the tool
name. -/
def add_tool_handler (m : List (String × HandlerKind)) (h : HandlerKind) :
    List (String × HandlerKind) :=
  dictInsert m h.toolName h

/-- The tool_handlers dict produced by register_tool_handlers
(server.py 63-106). -/
def tool_handlers : List (String × HandlerKind) :=
  tool_classes.foldl add_tool_handler []

/-- get_tool_handler (server.py 115-117). -/
def get_tool_handler (name : String) : Option HandlerKind :=
  dictLookup tool_handlers name

/-- Outcome of the call_tool dispatch (server.py 136-150): non-dict
arguments raise RuntimeError, an unregistered name raises ValueError with
the unknown-tool message, a registered name dispatches to its handler (the
execution itself is the business of the individual run_tool bodies modelled
above). -/
inductive CallOutcome where
  | runs : HandlerKind → CallOutcome
  | unknownTool : String → CallOutcome
  | argumentsNotDict : CallOutcome
deriving DecidableEq

/-- call_tool (server.py 136-150), up to the dispatch decision. -/
def call_tool (name : String) (argumentsAreDict : Bool) : CallOutcome :=
  if ¬ argumentsAreDict then .argumentsNotDict
  else
    match get_tool_handler name with
    | none => .unknownTool name
    | some h => .runs h

/-- Claim C9: the registry holds exactly the 17 classes of the tool_classes
list and never DiffRoutesToolHandler, so call_tool on ipf_diff_routes finds
no handler and fails with the unknown-tool protocol error. -/
theorem registry_excludes_diff_routes :
    tool_handlers.length = 17
    ∧ tool_handlers.map Prod.snd = tool_classes
    ∧ (∀ p ∈ tool_handlers, p.2 ≠ HandlerKind.diffRoutes)
    ∧ get_tool_handler "ipf_diff_routes" = none
    ∧ call_tool "ipf_diff_routes" true = .unknownTool "ipf_diff_routes" := by
  refine ⟨rfl, rfl, ?_, rfl, rfl⟩
  decide
